import Mathlib

/-
Verification of the detection-to-decision engine of the Smart-Trail project
(`camera.py`, class `VideoCamera`). The per-frame pipeline `get_frame` is
shallowly embedded: machine ints are `Int` with Python floor division
(`Int.fdiv`), the detector invocation is an `Except String` value (a fault or
a detection list), and the OpenCV drawing calls are abstracted into the
decision data they render (target box, steering text, lane flags, advisory
text, degraded-mode placeholder text).
-/

namespace SmartTrail

/-- One object detection, as unpacked in the per-box loop of `get_frame`:
`x1, y1, x2, y2 = map(int, box.xyxy[0])` plus the resolved class label.
The confidence value is only interpolated into drawn text, never read by any
decision, so it is not modelled. -/
structure Detection where
  x1 : Int
  y1 : Int
  x2 : Int
  y2 : Int
  label : String
deriving DecidableEq

/-- The fixed obstacle-label set `OBSTACLE_LABELS` from `camera.py`. -/
def OBSTACLE_LABELS : List String :=
  ["obstacle", "chair", "bench", "table", "backpack", "handbag", "suitcase",
   "bicycle", "motorbike", "car", "truck", "dog", "cat", "traffic light",
   "stop sign"]

/-- Semantic category of a detection. -/
inductive Category
  | PERSON
  | OBSTACLE
  | OTHER
deriving DecidableEq

/-- Python `str.lower()`, modelled character-wise; every label the detector
can emit is ASCII, where the two functions agree. -/
def lowerString (s : String) : String := String.mk (s.data.map Char.toLower)

/-- Label classification from the per-box loop: `label_lower = label.lower()`;
`person` is PERSON, membership in `OBSTACLE_LABELS` is OBSTACLE, anything
else is OTHER. -/
def classify (label : String) : Category :=
  let label_lower := lowerString label
  if label_lower == "person" then Category.PERSON
  else if OBSTACLE_LABELS.contains label_lower then Category.OBSTACLE
  else Category.OTHER

/-- Body of the categorisation loop: append a PERSON detection to `people`,
an OBSTACLE detection to `obstacles`, and leave both lists unchanged for an
OTHER detection (which is drawn but ignored for navigation). -/
def categorizeStep (acc : List Detection × List Detection) (d : Detection) :
    List Detection × List Detection :=
  match classify d.label with
  | Category.PERSON => (acc.1 ++ [d], acc.2)
  | Category.OBSTACLE => (acc.1, acc.2 ++ [d])
  | Category.OTHER => acc

/-- The categorisation loop of `get_frame`: scan the detections in order,
building the `people` and `obstacles` lists. -/
def categorize (dets : List Detection) : List Detection × List Detection :=
  dets.foldl categorizeStep ([], [])

/-- Box area as computed in the target-selection loop: `(x2-x1)*(y2-y1)`. -/
def area (d : Detection) : Int := (d.x2 - d.x1) * (d.y2 - d.y1)

/-- The target-selection scan of `get_frame`: running maximum `max_area`,
updated only on strict improvement (`if area > max_area`). -/
def selectLoop : List Detection → Int → Option Detection → Option Detection
  | [], _, best => best
  | p :: rest, maxArea, best =>
      if area p > maxArea then selectLoop rest (area p) (some p)
      else selectLoop rest maxArea best

/-- Target selection: the scan starts with `max_area = 0` and
`target_box = None`. -/
def select_target (people : List Detection) : Option Detection :=
  selectLoop people 0 none

/-- Discrete steering direction. -/
inductive Direction
  | FORWARD
  | LEFT
  | RIGHT
deriving DecidableEq

/-- Horizontal centre of the target box: `target_cx = (x1 + x2) // 2`
(Python floor division). -/
def target_cx (d : Detection) : Int := (d.x1 + d.x2).fdiv 2

/-- Frame centre: `center_x = width // 2`. -/
def center_x (width : Int) : Int := width.fdiv 2

/-- Steering decision of `get_frame`: `deviation = target_cx - center_x`,
default FORWARD, LEFT when `deviation < -50`, RIGHT when `deviation > 50`. -/
def compute_steering (d : Detection) (width : Int) : Direction :=
  let deviation := target_cx d - center_x width
  if deviation < -50 then Direction.LEFT
  else if deviation > 50 then Direction.RIGHT
  else Direction.FORWARD

/-- Canonical frame width: every captured frame is resized to 640x480 before
any geometry computation. -/
def frameWidth : Int := 640

/-- Canonical frame height after the resize. -/
def frameHeight : Int := 480

/-- Danger-zone boundary `danger_zone_y = int(height * 0.6)`; with the
canonical height 480 this evaluates exactly to 288. -/
def danger_zone_y : Int := 288

/-- Left lane boundary `mid_left = width // 3 = 213`. -/
def mid_left : Int := frameWidth.fdiv 3

/-- Right lane boundary `mid_right = 2 * width // 3 = 426`. -/
def mid_right : Int := (2 * frameWidth).fdiv 3

/-- Lane-blocked flags computed by the obstacle loop. -/
structure LaneState where
  left_blocked : Bool
  center_blocked : Bool
  right_blocked : Bool
deriving DecidableEq

/-- Body of the obstacle loop: skip the obstacle when `oy2 < danger_zone_y`
(`continue`), otherwise classify its horizontal centre `ocx = (ox1+ox2)//2`
into a lane and set that lane's flag. -/
def laneStep (flags : LaneState) (o : Detection) : LaneState :=
  if o.y2 < danger_zone_y then flags
  else
    let ocx := (o.x1 + o.x2).fdiv 2
    if ocx < mid_left then { flags with left_blocked := true }
    else if ocx > mid_right then { flags with right_blocked := true }
    else { flags with center_blocked := true }

/-- The obstacle loop of `get_frame`: all three flags start false. -/
def analyze_lanes (obstacles : List Detection) : LaneState :=
  obstacles.foldl laneStep ⟨false, false, false⟩

/-- Avoidance advisory text from the lane flags, exactly the if/elif chain of
`get_frame` (`avoid_text` stays `None` when no branch fires). -/
def advisory (s : LaneState) : Option String :=
  if s.center_blocked then
    if !s.left_blocked then some "OBSTACLE AHEAD - GO LEFT"
    else if !s.right_blocked then some "OBSTACLE AHEAD - GO RIGHT"
    else some "OBSTACLE AHEAD - STOP"
  else if s.left_blocked && !s.right_blocked then some "KEEP RIGHT"
  else if s.right_blocked && !s.left_blocked then some "KEEP LEFT"
  else none

/-- The decision data the ACTIVE path renders onto the frame. -/
structure Decisions where
  target : Option Detection
  steering : Option Direction
  lanes : Option LaneState
  advisoryText : Option String
  searching : Bool
deriving DecidableEq

/-- Decision data of a frame that never reaches the detection branch. -/
def noDecisions : Decisions :=
  { target := none, steering := none, lanes := none, advisoryText := none,
    searching := false }

/-- The detection branch of `get_frame` for one frame's detection list:
when the list is empty (`boxes is None or len(boxes) == 0`) only the
"SEARCHING FOR USER..." overlay is drawn; otherwise the detections are
categorised, the largest person is selected, steering is computed only when a
target box was selected, and lane flags plus advisory are computed only when
the obstacle list is nonempty. -/
def decide_frame (dets : List Detection) : Decisions :=
  if dets.isEmpty then
    { target := none, steering := none, lanes := none, advisoryText := none,
      searching := true }
  else
    let people := (categorize dets).1
    let obstacles := (categorize dets).2
    let target := select_target people
    let steering := target.map (fun t => compute_steering t frameWidth)
    let lanes := if obstacles.isEmpty then none else some (analyze_lanes obstacles)
    let advisoryText :=
      match lanes with
      | none => none
      | some s => advisory s
    { target := target, steering := steering, lanes := lanes,
      advisoryText := advisoryText, searching := false }

/-- Per-frame pipeline mode. -/
inductive PipelineMode
  | PRIVACY
  | NO_CAMERA
  | NO_SIGNAL
  | NO_MODEL
  | DETECTION_ERROR
  | ACTIVE
deriving DecidableEq

/-- The `VideoCamera` attributes that survive across frames: the privacy
toggle `is_running`, the reserved `target_id`, and whether `self.model`
loaded. `get_frame` mutates none of them. -/
structure CamState where
  is_running : Bool
  target_id : Option Int
  model_loaded : Bool
deriving DecidableEq

/-- Per-frame inputs from the external collaborators: whether the capture
device reports open, whether `read()` succeeded, and the detector invocation
outcome (a fault message or a detection list). -/
structure FrameInput where
  cam_opened : Bool
  read_ok : Bool
  infer : Except String (List Detection)

/-- What `get_frame` renders for one frame: the mode, the degraded-mode
placeholder text (none in ACTIVE mode), whether `self.video.read()` was
invoked at all, and the decision data. -/
structure FrameOutput where
  mode : PipelineMode
  overlay : Option String
  capture_attempted : Bool
  decisions : Decisions

/-- Error-message truncation in the except-handler:
`err_str[:30] if len(err_str) > 30 else err_str`. -/
def errTruncate (s : String) : String :=
  if s.length > 30 then String.mk (s.data.take 30) else s

/-- Shallow embedding of `VideoCamera.get_frame`: the guard chain
(privacy toggle, capture open, read success), then the try-block whose
detection branch runs only when a model is loaded, with any detector fault
caught and rendered as a truncated `Detection Error:` overlay. The returned
state is the state passed in: `get_frame` writes no attribute. -/
def get_frame (st : CamState) (inp : FrameInput) : FrameOutput × CamState :=
  let out :=
    if !st.is_running then
      { mode := PipelineMode.PRIVACY, overlay := some "PRIVACY MODE ON",
        capture_attempted := false, decisions := noDecisions }
    else if !inp.cam_opened then
      { mode := PipelineMode.NO_CAMERA, overlay := some "Camera Not Accessible",
        capture_attempted := false, decisions := noDecisions }
    else if !inp.read_ok then
      { mode := PipelineMode.NO_SIGNAL, overlay := some "No Camera Signal",
        capture_attempted := true, decisions := noDecisions }
    else if !st.model_loaded then
      { mode := PipelineMode.NO_MODEL, overlay := some "YOLO MODEL UNAVAILABLE",
        capture_attempted := true, decisions := noDecisions }
    else
      match inp.infer with
      | Except.error e =>
          { mode := PipelineMode.DETECTION_ERROR,
            overlay := some ("Detection Error: " ++ errTruncate e),
            capture_attempted := true, decisions := noDecisions }
      | Except.ok dets =>
          { mode := PipelineMode.ACTIVE, overlay := none,
            capture_attempted := true, decisions := decide_frame dets }
  (out, st)

/-- Spec-side reading of the avoidance precedence table, written as a
first-match rule list over the (left, center, right) flags. -/
def advisorySpec (l c r : Bool) : Option String :=
  match c, l, r with
  | true, false, _ => some "OBSTACLE AHEAD - GO LEFT"
  | true, true, false => some "OBSTACLE AHEAD - GO RIGHT"
  | true, true, true => some "OBSTACLE AHEAD - STOP"
  | false, true, false => some "KEEP RIGHT"
  | false, false, true => some "KEEP LEFT"
  | false, true, true => none
  | false, false, false => none

/-- Spec-side reading of the degraded-mode ordering: the first applicable of
PRIVACY, NO_CAMERA, NO_SIGNAL, NO_MODEL wins, otherwise the frame is ACTIVE. -/
def modeSpec (running opened read_ok model : Bool) : PipelineMode :=
  if running = false then PipelineMode.PRIVACY
  else if opened = false then PipelineMode.NO_CAMERA
  else if read_ok = false then PipelineMode.NO_SIGNAL
  else if model = false then PipelineMode.NO_MODEL
  else PipelineMode.ACTIVE

/-- Spec-side lane of an obstacle's horizontal centre: LEFT below the left
third boundary, RIGHT above the right third boundary, else CENTER. -/
inductive Lane
  | LEFT
  | CENTER
  | RIGHT
deriving DecidableEq

/-- Spec-side lane classification of a horizontal centre. -/
def laneOf (ocx : Int) : Lane :=
  if ocx < mid_left then Lane.LEFT
  else if ocx > mid_right then Lane.RIGHT
  else Lane.CENTER

/-- Setting the flag of one lane. -/
def setLane (flags : LaneState) : Lane → LaneState
  | Lane.LEFT => { flags with left_blocked := true }
  | Lane.RIGHT => { flags with right_blocked := true }
  | Lane.CENTER => { flags with center_blocked := true }

/-- Concrete OTHER detection: the COCO label kite is neither person nor in
the obstacle set. -/
def kiteDet : Detection := ⟨0, 0, 10, 10, "kite"⟩

/-- Concrete PERSON detection with a large box. -/
def personBig : Detection := ⟨100, 50, 300, 450, "Person"⟩

/-- Concrete OBSTACLE detection in the left lane of the danger zone. -/
def chairLeft : Detection := ⟨100, 300, 200, 470, "chair"⟩

/-- First of two equal-area PERSON detections. -/
def personTieA : Detection := ⟨0, 0, 2, 2, "person"⟩

/-- Second of two equal-area PERSON detections. -/
def personTieB : Detection := ⟨10, 10, 12, 12, "person"⟩

/-- C2: for every lane-blocked triple, the avoidance advisory equals the
first matching rule of the precedence list: center and not left gives
GO LEFT regardless of the right flag; center, left and not right gives
GO RIGHT; all three blocked gives STOP; only left gives KEEP RIGHT; only
right gives KEEP LEFT; otherwise no advisory. -/
theorem C2_advisory_precedence :
    ∀ l c r : Bool, advisory ⟨l, c, r⟩ = advisorySpec l c r := by
  decide

/-- C3: the steering decision is deviation = target_cx - center_x with both
centres computed by floor division, LEFT below -50, RIGHT above 50, FORWARD
inside the deadband; at frame width 640, a target centred at 220 steers
LEFT, at 400 steers RIGHT, and at 300 steers FORWARD. -/
theorem C3_steering_decision :
    (∀ (d : Detection) (w : Int),
      compute_steering d w =
        (if (d.x1 + d.x2).fdiv 2 - w.fdiv 2 < -50 then Direction.LEFT
         else if (d.x1 + d.x2).fdiv 2 - w.fdiv 2 > 50 then Direction.RIGHT
         else Direction.FORWARD)) ∧
    compute_steering ⟨200, 0, 240, 400, "person"⟩ 640 = Direction.LEFT ∧
    compute_steering ⟨380, 0, 420, 400, "person"⟩ 640 = Direction.RIGHT ∧
    compute_steering ⟨280, 0, 320, 400, "person"⟩ 640 = Direction.FORWARD := by
  refine ⟨fun d w => rfl, by decide, by decide, by decide⟩

/-- C4: when the detector does not fault, the mode of `get_frame` is chosen
by the fixed order PRIVACY, NO_CAMERA, NO_SIGNAL, NO_MODEL, ACTIVE with the
first applicable condition winning; and whenever the privacy toggle is off,
the PRIVACY MODE ON placeholder is returned and the capture read is skipped
entirely, even when camera and model are healthy. -/
theorem C4_mode_ordering :
    (∀ (st : CamState) (inp : FrameInput) (dets : List Detection),
      inp.infer = Except.ok dets →
      (get_frame st inp).1.mode =
        modeSpec st.is_running inp.cam_opened inp.read_ok st.model_loaded) ∧
    (∀ (st : CamState) (inp : FrameInput),
      st.is_running = false →
      (get_frame st inp).1.mode = PipelineMode.PRIVACY ∧
      (get_frame st inp).1.overlay = some "PRIVACY MODE ON" ∧
      (get_frame st inp).1.capture_attempted = false) := by
  constructor
  · rintro ⟨running, tid, model⟩ ⟨opened, rok, infer⟩ dets h
    subst h
    cases running <;> cases opened <;> cases rok <;> cases model <;> rfl
  · rintro ⟨running, tid, model⟩ inp h
    subst h
    exact ⟨rfl, rfl, rfl⟩

/-- C4 witness: with the privacy toggle off and camera, read and model all
healthy, the frame is the PRIVACY placeholder and no capture is attempted. -/
theorem C4_mode_ordering_witness :
    (get_frame ⟨false, none, true⟩ ⟨true, true, Except.ok []⟩).1.mode =
        PipelineMode.PRIVACY ∧
    (get_frame ⟨false, none, true⟩ ⟨true, true, Except.ok []⟩).1.overlay =
        some "PRIVACY MODE ON" ∧
    (get_frame ⟨false, none, true⟩ ⟨true, true, Except.ok []⟩).1.capture_attempted =
        false :=
  C4_mode_ordering.2 ⟨false, none, true⟩ ⟨true, true, Except.ok []⟩ rfl

/-- C9: the pipeline is a pure function of its inputs: `get_frame` leaves the
camera state unchanged, a repeated invocation on the same inputs produces the
identical output, and the output never depends on the reserved cross-frame
`target_id` field (the only carried state the decisions read is the toggle
and model availability, both part of the compared state). -/
theorem C9_idempotent_pipeline :
    ∀ (st : CamState) (inp : FrameInput),
      (get_frame st inp).2 = st ∧
      (get_frame ((get_frame st inp).2) inp).1 = (get_frame st inp).1 ∧
      (∀ (tid tid' : Option Int) (r m : Bool),
        (get_frame ⟨r, tid, m⟩ inp).1 = (get_frame ⟨r, tid', m⟩ inp).1) := by
  intro st inp
  exact ⟨rfl, rfl, fun tid tid' r m => rfl⟩

/-- Obstacles whose bottom edge stays above the danger zone leave the fold
state untouched, so the whole lane analysis only sees the surviving ones. -/
theorem foldl_laneStep_filter (obstacles : List Detection) :
    ∀ flags : LaneState,
      obstacles.foldl laneStep flags =
        (obstacles.filter (fun o => decide (danger_zone_y ≤ o.y2))).foldl
          laneStep flags := by
  induction obstacles with
  | nil => intro flags; rfl
  | cons o rest ih =>
    intro flags
    by_cases h : danger_zone_y ≤ o.y2
    · have hd : List.filter (fun o : Detection => decide (danger_zone_y ≤ o.y2))
          (o :: rest) =
          o :: List.filter (fun o : Detection => decide (danger_zone_y ≤ o.y2)) rest := by
        simp [List.filter_cons, h]
      rw [List.foldl_cons, hd, List.foldl_cons]
      exact ih (laneStep flags o)
    · have hd : List.filter (fun o : Detection => decide (danger_zone_y ≤ o.y2))
          (o :: rest) =
          List.filter (fun o : Detection => decide (danger_zone_y ≤ o.y2)) rest := by
        simp [List.filter_cons, h]
      have hstep : laneStep flags o = flags := by
        have hlt : o.y2 < danger_zone_y := lt_of_not_le h
        simp [laneStep, hlt]
      rw [List.foldl_cons, hd, hstep]
      exact ih flags

/-- C7: an OBSTACLE detection contributes to lane blocking only if its bottom
edge reaches the danger zone: below-288 bottom edges are discarded from the
analysis regardless of horizontal position, and a surviving obstacle sets the
flag of the lane of its horizontal centre (left below width/3, right above
2*width/3, else center). -/
theorem C7_danger_zone_lanes :
    (∀ obstacles : List Detection,
      analyze_lanes obstacles =
        analyze_lanes (obstacles.filter (fun o => decide (danger_zone_y ≤ o.y2)))) ∧
    (∀ (flags : LaneState) (o : Detection),
      (o.y2 < danger_zone_y → laneStep flags o = flags) ∧
      (danger_zone_y ≤ o.y2 →
        laneStep flags o = setLane flags (laneOf ((o.x1 + o.x2).fdiv 2)))) := by
  constructor
  · intro obstacles
    exact foldl_laneStep_filter obstacles ⟨false, false, false⟩
  · intro flags o
    constructor
    · intro h
      simp [laneStep, h]
    · intro h
      have hnot : ¬ o.y2 < danger_zone_y := not_lt.mpr h
      simp only [laneStep, hnot, if_false]
      by_cases h1 : (o.x1 + o.x2).fdiv 2 < mid_left
      · simp [laneOf, setLane, h1]
      · by_cases h2 : (o.x1 + o.x2).fdiv 2 > mid_right
        · simp [laneOf, setLane, h1, h2]
        · simp [laneOf, setLane, h1, h2]

/-- C7 witness: an obstacle at bottom edge 200 (above the danger zone) is
ignored even though its centre is in the left lane, and an obstacle with
bottom edge 470 and centre 150 sets the left flag. -/
theorem C7_danger_zone_lanes_witness :
    (⟨100, 0, 200, 200, "chair"⟩ : Detection).y2 < danger_zone_y ∧
    laneStep ⟨false, false, false⟩ ⟨100, 0, 200, 200, "chair"⟩ =
      ⟨false, false, false⟩ ∧
    danger_zone_y ≤ (⟨100, 300, 200, 470, "chair"⟩ : Detection).y2 ∧
    laneStep ⟨false, false, false⟩ ⟨100, 300, 200, 470, "chair"⟩ =
      setLane ⟨false, false, false⟩
        (laneOf (((100 : Int) + 200).fdiv 2)) := by
  refine ⟨by decide, ?_, by decide, ?_⟩
  · exact (C7_danger_zone_lanes.2 ⟨false, false, false⟩
      ⟨100, 0, 200, 200, "chair"⟩).1 (by decide)
  · exact (C7_danger_zone_lanes.2 ⟨false, false, false⟩
      ⟨100, 300, 200, 470, "chair"⟩).2 (by decide)

/-- The truncated error message is the 30-character cut of the fault text. -/
theorem errTruncate_eq_take (s : String) :
    errTruncate s = String.mk (s.data.take 30) := by
  unfold errTruncate
  by_cases h : s.length > 30
  · simp [h]
  · have hle : s.data.length ≤ 30 := not_lt.mp h
    rw [if_neg h, List.take_of_length_le hle]

/-- C8: when the pipeline reaches detection and the detector invocation
faults, `get_frame` still returns a frame output (the model of the fault is
an `Except.error` consumed inside `get_frame`, which is a total function, so
the fault never propagates to the caller); the frame degrades to
DETECTION_ERROR and the message drawn on it carries at most 30 characters of
the fault text, namely its 30-character cut. -/
theorem C8_fault_contained (st : CamState) (inp : FrameInput) (e : String)
    (hrun : st.is_running = true) (hopen : inp.cam_opened = true)
    (hread : inp.read_ok = true) (hmodel : st.model_loaded = true)
    (herr : inp.infer = Except.error e) :
    (get_frame st inp).1.mode = PipelineMode.DETECTION_ERROR ∧
    (get_frame st inp).1.overlay = some ("Detection Error: " ++ errTruncate e) ∧
    (errTruncate e).length ≤ 30 ∧
    errTruncate e = String.mk (e.data.take 30) := by
  obtain ⟨running, tid, model⟩ := st
  obtain ⟨opened, rok, infer⟩ := inp
  dsimp only at hrun hopen hread hmodel herr
  subst hrun hopen hread hmodel herr
  refine ⟨rfl, rfl, ?_, errTruncate_eq_take e⟩
  rw [errTruncate_eq_take e]
  have : (String.mk (e.data.take 30)).length = (e.data.take 30).length := rfl
  rw [this, List.length_take]
  exact min_le_left _ _

/-- C8 witness: a 36-character fault text is cut to its first 30 characters
and rendered in DETECTION_ERROR mode. -/
theorem C8_fault_contained_witness :
    (get_frame ⟨true, none, true⟩
        ⟨true, true, Except.error "shape mismatch in tensor broadcasting"⟩).1.mode =
      PipelineMode.DETECTION_ERROR ∧
    (get_frame ⟨true, none, true⟩
        ⟨true, true, Except.error "shape mismatch in tensor broadcasting"⟩).1.overlay =
      some ("Detection Error: " ++ errTruncate "shape mismatch in tensor broadcasting") ∧
    (errTruncate "shape mismatch in tensor broadcasting").length ≤ 30 ∧
    errTruncate "shape mismatch in tensor broadcasting" =
      String.mk ("shape mismatch in tensor broadcasting".data.take 30) :=
  C8_fault_contained ⟨true, none, true⟩
    ⟨true, true, Except.error "shape mismatch in tensor broadcasting"⟩
    "shape mismatch in tensor broadcasting" rfl rfl rfl rfl rfl

/-- Inserting or removing an OTHER-labelled detection anywhere leaves the
categorisation (both the people list and the obstacle list) unchanged. -/
theorem categorize_other (pre post : List Detection) (d : Detection)
    (h : classify d.label = Category.OTHER) :
    categorize (pre ++ d :: post) = categorize (pre ++ post) := by
  unfold categorize
  rw [List.foldl_append, List.foldl_append, List.foldl_cons]
  have hstep : ∀ acc : List Detection × List Detection,
      categorizeStep acc d = acc := by
    intro acc
    unfold categorizeStep
    rw [h]
  rw [hstep]

/-- C10: adding (anywhere) or removing a detection whose lowercased label is
neither person nor in the obstacle-label set leaves the target selection,
the steering direction, the lane-blocked flags and the avoidance advisory
unchanged: OTHER detections never influence any decision output. -/
theorem C10_other_never_influences (pre post : List Detection) (d : Detection)
    (h : classify d.label = Category.OTHER) :
    (decide_frame (pre ++ d :: post)).target = (decide_frame (pre ++ post)).target ∧
    (decide_frame (pre ++ d :: post)).steering = (decide_frame (pre ++ post)).steering ∧
    (decide_frame (pre ++ d :: post)).lanes = (decide_frame (pre ++ post)).lanes ∧
    (decide_frame (pre ++ d :: post)).advisoryText =
      (decide_frame (pre ++ post)).advisoryText := by
  have hc := categorize_other pre post d h
  by_cases hw : pre ++ post = []
  · obtain ⟨hpre, hpost⟩ := List.append_eq_nil.mp hw
    subst hpre hpost
    have hc0 : categorize [d] = ([], []) := by
      have hnil : categorize ([] : List Detection) = ([], []) := rfl
      rw [List.nil_append] at hc
      rw [hc]
      rfl
    simp [decide_frame, hc0, select_target, selectLoop]
  · have h1 : (pre ++ d :: post).isEmpty = false := by
      cases pre <;> rfl
    have h2 : (pre ++ post).isEmpty = false := by
      cases hp : pre ++ post with
      | nil => exact absurd hp hw
      | cons a t => rfl
    simp [decide_frame, h1, h2, hc]

/-- C10 witness: dropping the kite detection from a person-chair-kite frame
changes none of the four decision outputs. -/
theorem C10_other_never_influences_witness :
    (decide_frame ([personBig] ++ kiteDet :: [chairLeft])).target =
      (decide_frame ([personBig] ++ [chairLeft])).target ∧
    (decide_frame ([personBig] ++ kiteDet :: [chairLeft])).steering =
      (decide_frame ([personBig] ++ [chairLeft])).steering ∧
    (decide_frame ([personBig] ++ kiteDet :: [chairLeft])).lanes =
      (decide_frame ([personBig] ++ [chairLeft])).lanes ∧
    (decide_frame ([personBig] ++ kiteDet :: [chairLeft])).advisoryText =
      (decide_frame ([personBig] ++ [chairLeft])).advisoryText :=
  C10_other_never_influences [personBig] [chairLeft] kiteDet (by decide)

/-- If no element of the remaining list beats the running maximum, the scan
keeps the current best unchanged. -/
theorem selectLoop_all_le :
    ∀ (l : List Detection) (m : Int) (best : Option Detection),
      (∀ p ∈ l, area p ≤ m) → selectLoop l m best = best := by
  intro l
  induction l with
  | nil => intro m best _; rfl
  | cons p rest ih =>
    intro m best h
    have hp : area p ≤ m := h p (List.mem_cons_self p rest)
    have hnot : ¬ area p > m := not_lt.mpr hp
    simp only [selectLoop]
    rw [if_neg hnot]
    exact ih m best fun q hq => h q (List.mem_cons_of_mem p hq)

/-- If some element of the list strictly beats the running maximum, the scan
returns the first element of maximal area: its area bounds every area in the
list, and every earlier element has strictly smaller area. -/
theorem selectLoop_first_max :
    ∀ (l : List Detection) (m : Int) (best : Option Detection),
      (∃ p ∈ l, m < area p) →
      ∃ i : Fin l.length,
        selectLoop l m best = some (l.get i) ∧
        m < area (l.get i) ∧
        (∀ j : Fin l.length, area (l.get j) ≤ area (l.get i)) ∧
        (∀ j : Fin l.length, (j : ℕ) < (i : ℕ) →
          area (l.get j) < area (l.get i)) := by
  intro l
  induction l with
  | nil =>
    intro m best h
    obtain ⟨p, hp, _⟩ := h
    exact absurd hp (List.not_mem_nil p)
  | cons p rest ih =>
    intro m best h
    by_cases hp : m < area p
    · have hred : selectLoop (p :: rest) m best = selectLoop rest (area p) (some p) := by
        simp only [selectLoop]
        rw [if_pos hp]
      by_cases hrest : ∃ q ∈ rest, area p < area q
      · obtain ⟨i, h1, h2, h3, h4⟩ := ih (area p) (some p) hrest
        refine ⟨i.succ, ?_, lt_trans hp h2, ?_, ?_⟩
        · rw [hred, h1]
          rfl
        · intro j
          rcases j with ⟨jv, hj⟩
          cases jv with
          | zero => exact le_of_lt h2
          | succ jv' => exact h3 ⟨jv', Nat.lt_of_succ_lt_succ hj⟩
        · intro j hj
          rcases j with ⟨jv, hjlt⟩
          cases jv with
          | zero => exact h2
          | succ jv' =>
            exact h4 ⟨jv', Nat.lt_of_succ_lt_succ hjlt⟩ (Nat.lt_of_succ_lt_succ hj)
      · push_neg at hrest
        have hstop : selectLoop rest (area p) (some p) = some p :=
          selectLoop_all_le rest (area p) (some p) hrest
        refine ⟨⟨0, Nat.succ_pos rest.length⟩, ?_, hp, ?_, ?_⟩
        · rw [hred, hstop]
          rfl
        · intro j
          rcases j with ⟨jv, hj⟩
          cases jv with
          | zero => exact le_refl _
          | succ jv' =>
            exact hrest _ (List.get_mem rest jv' (Nat.lt_of_succ_lt_succ hj))
        · intro j hj
          exact absurd hj (Nat.not_lt_zero _)
    · have hred : selectLoop (p :: rest) m best = selectLoop rest m best := by
        simp only [selectLoop]
        rw [if_neg hp]
      have hrest : ∃ q ∈ rest, m < area q := by
        obtain ⟨q, hq, hmq⟩ := h
        rcases List.mem_cons.mp hq with heq | hq'
        · exact absurd (heq ▸ hmq) hp
        · exact ⟨q, hq', hmq⟩
      obtain ⟨i, h1, h2, h3, h4⟩ := ih m best hrest
      have hple : area p ≤ m := not_lt.mp hp
      refine ⟨i.succ, ?_, h2, ?_, ?_⟩
      · rw [hred, h1]
        rfl
      · intro j
        rcases j with ⟨jv, hj⟩
        cases jv with
        | zero => exact le_of_lt (lt_of_le_of_lt hple h2)
        | succ jv' => exact h3 ⟨jv', Nat.lt_of_succ_lt_succ hj⟩
      · intro j hj
        rcases j with ⟨jv, hjlt⟩
        cases jv with
        | zero => exact lt_of_le_of_lt hple h2
        | succ jv' =>
          exact h4 ⟨jv', Nat.lt_of_succ_lt_succ hjlt⟩ (Nat.lt_of_succ_lt_succ hj)

/-- C1 (amended): among the PERSON detections of a frame, provided at least
one has positive area, the strict-improvement scan of `select_target`
returns the first detection of maximal area: every person's area is bounded
by it, and every earlier person has strictly smaller area. Boxes of area at
most zero can never be selected, because the running maximum starts at 0. -/
theorem C1_first_strict_max (dets : List Detection)
    (h : ∃ p ∈ (categorize dets).1, 0 < area p) :
    ∃ i : Fin (categorize dets).1.length,
      select_target (categorize dets).1 = some ((categorize dets).1.get i) ∧
      (∀ j : Fin (categorize dets).1.length,
        area ((categorize dets).1.get j) ≤ area ((categorize dets).1.get i)) ∧
      (∀ j : Fin (categorize dets).1.length, (j : ℕ) < (i : ℕ) →
        area ((categorize dets).1.get j) < area ((categorize dets).1.get i)) := by
  obtain ⟨i, h1, _, h3, h4⟩ := selectLoop_first_max (categorize dets).1 0 none h
  exact ⟨i, h1, h3, h4⟩

/-- C1 counterexample: a detection sequence whose only PERSON entry has a
zero-area box. The claim says the first of the equal-area maxima (that very
entry) is returned; the code returns no target, because the running maximum
starts at 0 and only strict improvement updates it. -/
theorem C1_counterexample_zero_area :
    classify (⟨0, 0, 0, 0, "person"⟩ : Detection).label = Category.PERSON ∧
    (categorize [(⟨0, 0, 0, 0, "person"⟩ : Detection)]).1 =
      [(⟨0, 0, 0, 0, "person"⟩ : Detection)] ∧
    select_target (categorize [(⟨0, 0, 0, 0, "person"⟩ : Detection)]).1 = none ∧
    select_target (categorize [(⟨0, 0, 0, 0, "person"⟩ : Detection)]).1 ≠
      some (⟨0, 0, 0, 0, "person"⟩ : Detection) := by
  decide

/-- C1 witness: on two PERSON detections of equal area 4, the selection is
the first in input order. -/
theorem C1_first_strict_max_witness :
    ∃ i : Fin (categorize [personTieA, personTieB]).1.length,
      select_target (categorize [personTieA, personTieB]).1 =
        some ((categorize [personTieA, personTieB]).1.get i) ∧
      (∀ j : Fin (categorize [personTieA, personTieB]).1.length,
        area ((categorize [personTieA, personTieB]).1.get j) ≤
          area ((categorize [personTieA, personTieB]).1.get i)) ∧
      (∀ j : Fin (categorize [personTieA, personTieB]).1.length,
        (j : ℕ) < (i : ℕ) →
        area ((categorize [personTieA, personTieB]).1.get j) <
          area ((categorize [personTieA, personTieB]).1.get i)) :=
  C1_first_strict_max [personTieA, personTieB] (by decide)

/-- C6 (amended): whenever some PERSON detection of the frame has positive
area, the target selection is present, its box area is maximal among all
PERSON detections, and every PERSON detection of equal (maximal) area sits at
the selected index or later: ties resolve to the first-seen entry. A frame
whose PERSON detections all have area at most zero yields no selection. -/
theorem C6_presence_max_first (dets : List Detection)
    (h : ∃ p ∈ (categorize dets).1, 0 < area p) :
    ∃ i : Fin (categorize dets).1.length,
      select_target (categorize dets).1 = some ((categorize dets).1.get i) ∧
      (∀ p ∈ (categorize dets).1, area p ≤ area ((categorize dets).1.get i)) ∧
      (∀ j : Fin (categorize dets).1.length,
        area ((categorize dets).1.get j) = area ((categorize dets).1.get i) →
        (i : ℕ) ≤ (j : ℕ)) := by
  obtain ⟨i, h1, _, h3, h4⟩ := selectLoop_first_max (categorize dets).1 0 none h
  refine ⟨i, h1, ?_, ?_⟩
  · intro q hq
    obtain ⟨j, hj⟩ := List.mem_iff_get.mp hq
    rw [← hj]
    exact h3 j
  · intro j hEq
    by_contra hlt
    push_neg at hlt
    exact absurd hEq (ne_of_lt (h4 j hlt))

/-- C6 counterexample: a detection set whose single PERSON entry has a
negative-area box (x2 < x1). The claim promises a present selection for any
box coordinates; the code returns none. -/
theorem C6_counterexample_negative_area :
    classify (⟨3, 0, 1, 4, "person"⟩ : Detection).label = Category.PERSON ∧
    (categorize [(⟨3, 0, 1, 4, "person"⟩ : Detection)]).1 ≠ [] ∧
    select_target (categorize [(⟨3, 0, 1, 4, "person"⟩ : Detection)]).1 = none := by
  decide

/-- C6 witness: a frame holding an obstacle and two equal-area persons
selects the first person, whose area bounds both. -/
theorem C6_presence_max_first_witness :
    ∃ i : Fin (categorize [chairLeft, personTieA, personTieB]).1.length,
      select_target (categorize [chairLeft, personTieA, personTieB]).1 =
        some ((categorize [chairLeft, personTieA, personTieB]).1.get i) ∧
      (∀ p ∈ (categorize [chairLeft, personTieA, personTieB]).1,
        area p ≤ area ((categorize [chairLeft, personTieA, personTieB]).1.get i)) ∧
      (∀ j : Fin (categorize [chairLeft, personTieA, personTieB]).1.length,
        area ((categorize [chairLeft, personTieA, personTieB]).1.get j) =
          area ((categorize [chairLeft, personTieA, personTieB]).1.get i) →
        (i : ℕ) ≤ (j : ℕ)) :=
  C6_presence_max_first [chairLeft, personTieA, personTieB] (by decide)

/-- C5 (amended): a frame with zero PERSON detections yields no target
selection, but the SEARCHING FOR USER... overlay is rendered exactly when
the detection set is entirely empty: obstacle-only (or other-only) frames
render no searching overlay. -/
theorem C5_no_person_search (dets : List Detection)
    (h : (categorize dets).1 = []) :
    (decide_frame dets).target = none ∧
    ((decide_frame dets).searching = true ↔ dets = []) := by
  cases dets with
  | nil => exact ⟨rfl, by simp [decide_frame]⟩
  | cons d rest =>
    have hne : ¬ ((d :: rest).isEmpty = true) := Bool.false_ne_true
    unfold decide_frame
    rw [if_neg hne]
    constructor
    · show select_target (categorize (d :: rest)).1 = none
      rw [h]
      rfl
    · show false = true ↔ d :: rest = []
      simp

/-- C5 counterexample: an obstacle-only detection set has zero PERSON
entries, yet the SEARCHING FOR USER... overlay is not rendered (it is drawn
only when the detection list is entirely empty). -/
theorem C5_counterexample_obstacle_only :
    (categorize [chairLeft]).1 = [] ∧
    (decide_frame [chairLeft]).target = none ∧
    (decide_frame [chairLeft]).searching = false := by
  decide

/-- C5 witness: on the obstacle-only frame, the target is absent and the
searching overlay is shown iff the set is empty (here it is not). -/
theorem C5_no_person_search_witness :
    (decide_frame [chairLeft]).target = none ∧
    ((decide_frame [chairLeft]).searching = true ↔
      [chairLeft] = ([] : List Detection)) :=
  C5_no_person_search [chairLeft] (by decide)

end SmartTrail
